import Mathlib

/-!
Verification of the `SliceViewPanel` compositor and navigation controller
(`src/neuroglancer/sliceview/panel.ts`) against its natural-language
specification.

Scalars (TypeScript `number`) are modelled as rationals `ℚ`; the claims under
consideration are algebraic identities of the navigation math and structural
properties of the draw/pick pipeline, none of which depend on floating-point
rounding.  3-vectors and 4×4 matrices mirror the flat column-major layout of
the `gl-matrix`-style utilities used by the source.

External collaborators that the source file imports but whose code is not part
of this repository slice (matrix utilities, `NavigationState.zoomBy`,
`pose.rotateAbsolute`, `startRelativeMouseDrag`, `PickIDManager`, `Signal`,
WebGL draw-buffer semantics) are modelled from the specification; each such
definition carries a doc comment saying so.
-/

/-- A 3-vector of rationals, mirroring `vec3` from `neuroglancer/util/geom`. -/
structure Vec3 where
  x : ℚ
  y : ℚ
  z : ℚ
deriving DecidableEq, Repr

/-- Componentwise addition of 3-vectors. -/
def Vec3.add (a b : Vec3) : Vec3 :=
  ⟨a.x + b.x, a.y + b.y, a.z + b.z⟩

/-- `vec3.scaleAndAdd(out, a, b, s)`: `a + b * s`, from the matrix utility
library used by the source. -/
def Vec3.scaleAndAdd (a b : Vec3) (s : ℚ) : Vec3 :=
  ⟨a.x + b.x * s, a.y + b.y * s, a.z + b.z * s⟩

/-- A 4×4 matrix stored in the flat column-major layout of `mat4`
(`m0..m3` is column 0, `m12..m14` the translation column). -/
structure Mat4 where
  m0 : ℚ
  m1 : ℚ
  m2 : ℚ
  m3 : ℚ
  m4 : ℚ
  m5 : ℚ
  m6 : ℚ
  m7 : ℚ
  m8 : ℚ
  m9 : ℚ
  m10 : ℚ
  m11 : ℚ
  m12 : ℚ
  m13 : ℚ
  m14 : ℚ
  m15 : ℚ
deriving DecidableEq, Repr

/-- The identity `mat4`. -/
def Mat4.identity : Mat4 :=
  ⟨1, 0, 0, 0,  0, 1, 0, 0,  0, 0, 1, 0,  0, 0, 0, 1⟩

/-- Modelled from the spec: `vec3.transformMat4(out, a, m)` from the external
matrix utility library (`neuroglancer/util/geom`, not part of this repository
slice) applies the 4×4 transform to the point `a` with implicit homogeneous
coordinate `w = 1`, i.e. includes the matrix's translation column. -/
def Vec3.transformMat4 (a : Vec3) (m : Mat4) : Vec3 :=
  ⟨m.m0 * a.x + m.m4 * a.y + m.m8 * a.z + m.m12,
   m.m1 * a.x + m.m5 * a.y + m.m9 * a.z + m.m13,
   m.m2 * a.x + m.m6 * a.y + m.m10 * a.z + m.m14⟩

/-- The navigation state shared with the viewer: spatial position, zoom
factor, a validity flag, and a counter of `position.changed.dispatch()`
calls (modelling the observable signal). -/
structure NavigationState where
  valid : Bool
  position : Vec3
  zoomFactor : ℚ
  positionChangedDispatches : ℕ
deriving DecidableEq, Repr

/-- Modelled from the spec: `NavigationState.zoomBy(factor)` is external to
this repository slice; the spec describes the zoom factor as a scalar with a
"multiplicative-zoom" operation, so `zoomBy factor` multiplies the zoom
factor by `factor`. -/
def NavigationState.zoomBy (s : NavigationState) (factor : ℚ) : NavigationState :=
  { s with zoomFactor := s.zoomFactor * factor }

/-- The slice-view viewport as read by the panel: validity, pixel dimensions,
the data→device transform and its inverse, the two in-plane basis axes
(`viewportAxes[0]`, `viewportAxes[1]`), and the physical scale. -/
structure SliceView where
  hasValidViewport : Bool
  width : ℚ
  height : ℚ
  dataToDevice : Mat4
  viewportToData : Mat4
  viewportAxes0 : Vec3
  viewportAxes1 : Vec3
  pixelSize : ℚ
deriving DecidableEq, Repr

/-- Modelled from the spec: the `PickIDManager` (from
`neuroglancer/object_picking`, not part of this repository slice) is a
per-frame registry mapping nonzero `uint32` pick IDs to (layer, payload)
pairs; ID 0 is reserved to mean "no object". -/
structure PickIDManager where
  table : List (ℕ × ℕ × ℕ)
deriving DecidableEq, Repr

/-- Modelled from the spec: `PickIDManager.clear()` discards the previous
frame's mapping and resets the allocation counter. -/
def PickIDManager.clear (_m : PickIDManager) : PickIDManager :=
  ⟨[]⟩

/-- Modelled from the spec: resolving a pick value through the manager — ID 0
always resolves to "no object" without consulting the mapping; otherwise the
recorded (layer, payload) pair, if any. -/
def PickIDManager.resolve (m : PickIDManager) (id : ℕ) : Option (ℕ × ℕ) :=
  if id = 0 then none
  else (m.table.find? (fun e => e.1 = id)).map (fun e => e.2)

/-- The mouse selection state populated by hit testing: data-space position,
the picked layer and payload (both `none` when nothing is picked). -/
structure MouseSelectionState where
  position : Vec3
  pickedRenderLayer : Option ℕ
  pickedPayload : Option ℕ
deriving DecidableEq, Repr

/-- Modelled from the spec: `PickIDManager.setMouseState(mouseState, value)`
resolves the raw pick value through the manager and stores the owning layer
and payload into the mouse state. -/
def PickIDManager.setMouseState (m : PickIDManager) (ms : MouseSelectionState)
    (value : ℕ) : MouseSelectionState :=
  match m.resolve value with
  | none => { ms with pickedRenderLayer := none, pickedPayload := none }
  | some lp => { ms with pickedRenderLayer := some lp.1, pickedPayload := some lp.2 }

/-- The offscreen render target: its last-allocated size and the contents of
the pick attachment, addressable by pixel (`readPixelAsUint32`). -/
structure OffscreenFramebufferModel where
  sizeWidth : ℚ
  sizeHeight : ℚ
  pickPixel : ℚ → ℚ → ℕ

/-- `offscreenFramebuffer.hasSize(width, height)`: whether the target's
last-rendered size matches the given size. -/
def OffscreenFramebufferModel.hasSize (fb : OffscreenFramebufferModel)
    (w h : ℚ) : Bool :=
  fb.sizeWidth = w ∧ fb.sizeHeight = h

/-- State of a `SliceViewPanel`: its slice view, the shared navigation state,
the current mouse position, the axis-lines toggle, the tracker's ordered
visible-layer list, the pick-ID manager, the offscreen target, and the
scale-bar widget's dimension parameters. -/
structure SliceViewPanel where
  sliceView : SliceView
  navigationState : NavigationState
  mouseX : ℚ
  mouseY : ℚ
  showAxisLines : Bool
  visibleLayers : List ℕ
  pickIDs : PickIDManager
  offscreenFramebuffer : OffscreenFramebufferModel
  scaleBarTargetLengthInPixels : ℚ
  scaleBarNanometersPerPixel : ℚ

/-- `SliceViewPanel.zoomByMouse(factor)` (panel.ts lines 243–271): if the
navigation state is invalid, return unchanged; otherwise subtract the
viewport half-size from the mouse position, record the old zoom, apply
`zoomBy(factor)`, and translate the spatial position by
`viewportAxes[0] * (mouseX * (oldZoom - newZoom))` and
`viewportAxes[1] * (mouseY * (oldZoom - newZoom))` via `vec3.scaleAndAdd`,
then dispatch `position.changed`. -/
def SliceViewPanel.zoomByMouse (p : SliceViewPanel) (factor : ℚ) : SliceViewPanel :=
  if ¬ p.navigationState.valid then p
  else
    let sliceView := p.sliceView
    let mouseX := p.mouseX - sliceView.width / 2
    let mouseY := p.mouseY - sliceView.height / 2
    let oldZoom := p.navigationState.zoomFactor
    let ns := p.navigationState.zoomBy factor
    let newZoom := ns.zoomFactor
    let sc := ns.position
    let sc := sc.scaleAndAdd sliceView.viewportAxes0 (mouseX * (oldZoom - newZoom))
    let sc := sc.scaleAndAdd sliceView.viewportAxes1 (mouseY * (oldZoom - newZoom))
    { p with navigationState :=
        { ns with
          position := sc,
          positionChangedDispatches := ns.positionChangedDispatches + 1 } }

/-- A single `pose.rotateAbsolute(axis, angle, anchorPoint)` call issued by the
rotation drag handler, recorded with its axis, its angle in degrees (the
source passes `delta / 4.0 * Math.PI / 180.0` radians, i.e. `delta / 4`
degrees), and its anchor point. -/
structure RotationEvent where
  axis : Vec3
  angleDegrees : ℚ
  anchor : Vec3
deriving DecidableEq, Repr

/-- The mutable state touched by the `startRelativeMouseDrag` callback
registered in `onMousedown`: the navigation position (with its dispatch
counter) and the pose orientation.  The orientation type `O` is abstract; the
drag-start orientation is carried so that absolute rotations can be
reapplied from it. -/
structure DragState (O : Type) where
  position : Vec3
  positionChangedDispatches : ℕ
  dragStartOrientation : O
  orientation : O

/-- The drag callback registered by `SliceViewPanel.onMousedown` (panel.ts
lines 220–234).  With the shift modifier it issues two `rotateAbsolute` calls
anchored at `initialPosition` (the mouse-state position captured at drag
start): around `viewportAxes[1]` by `deltaX / 4` degrees, then around
`viewportAxes[0]` by `deltaY / 4` degrees; both calls are returned as
`RotationEvent`s in call order.  Without the modifier it sets the spatial
position to `(deltaX, deltaY, 0)` transformed through `viewportToData` and
dispatches `position.changed`.

The effect of the rotations on the orientation is modelled from the spec:
`pose.rotateAbsolute` and `startRelativeMouseDrag` are not part of this
repository slice; per the spec the deltas are cumulative from drag start and
the callback reapplies the absolute rotation wholesale from the drag-start
orientation (`rot axis angleDegrees o` being the abstract application of a
rotation to an orientation). -/
def mouseDragCallback {O : Type} (rot : Vec3 → ℚ → O → O) (sv : SliceView)
    (initialPosition : Vec3) (shiftKey : Bool) (deltaX deltaY : ℚ)
    (st : DragState O) : DragState O × List RotationEvent :=
  if shiftKey then
    let o := rot sv.viewportAxes1 (deltaX / 4) st.dragStartOrientation
    let o := rot sv.viewportAxes0 (deltaY / 4) o
    ({ st with orientation := o },
     [⟨sv.viewportAxes1, deltaX / 4, initialPosition⟩,
      ⟨sv.viewportAxes0, deltaY / 4, initialPosition⟩])
  else
    ({ st with
        position := Vec3.transformMat4 ⟨deltaX, deltaY, 0⟩ sv.viewportToData,
        positionChangedDispatches := st.positionChangedDispatches + 1 },
     [])

/-- Processing a whole rotate-modifier drag: fold the drag callback (shift
held) over the sequence of cumulative deltas delivered by the gesture. -/
def processRotationDrag {O : Type} (rot : Vec3 → ℚ → O → O) (sv : SliceView)
    (initialPosition : Vec3) (st : DragState O)
    (cumDeltas : List (ℚ × ℚ)) : DragState O :=
  cumDeltas.foldl
    (fun s d => (mouseDragCallback rot sv initialPosition true d.1 d.2 s).1) st

/-- The running partial sums of a list of incremental deltas, starting from
`acc`: the cumulative deltas the drag gesture reports. -/
def cumulativeDeltasFrom (acc : ℚ × ℚ) : List (ℚ × ℚ) → List (ℚ × ℚ)
  | [] => []
  | d :: ds =>
      let t := (acc.1 + d.1, acc.2 + d.2)
      t :: cumulativeDeltasFrom t ds

/-- The cumulative deltas `(d1), (d1+d2), (d1+d2+d3), …` of a list of
incremental deltas. -/
def cumulativeDeltas (ds : List (ℚ × ℚ)) : List (ℚ × ℚ) :=
  cumulativeDeltasFrom (0, 0) ds

/-- The componentwise total of a list of deltas. -/
def totalDelta (ds : List (ℚ × ℚ)) : ℚ × ℚ :=
  ds.foldl (fun a d => (a.1 + d.1, a.2 + d.2)) (0, 0)

/-- `SliceViewPanel.updateMouseState(mouseState)` (panel.ts lines 184–206):
clear `pickedRenderLayer`; fail if the viewport is invalid or the offscreen
target's size differs from the viewport size; otherwise set the mouse
position to `(mouseX - width/2, mouseY - height/2, 0)` transformed through
`viewportToData`, read the pick attachment at `(mouseX, height - mouseY)`
and resolve the value through the pick-ID manager, returning success. -/
def SliceViewPanel.updateMouseState (p : SliceViewPanel)
    (mouseState : MouseSelectionState) : Bool × MouseSelectionState :=
  let mouseState := { mouseState with pickedRenderLayer := none }
  let sliceView := p.sliceView
  if ¬ sliceView.hasValidViewport then (false, mouseState)
  else
    let width := sliceView.width
    let height := sliceView.height
    if ¬ p.offscreenFramebuffer.hasSize width height then (false, mouseState)
    else
      let glWindowX := p.mouseX
      let y := p.mouseY
      let out := Vec3.transformMat4 ⟨glWindowX - width / 2, y - height / 2, 0⟩
        sliceView.viewportToData
      let glWindowY := height - y
      (true,
       p.pickIDs.setMouseState { mouseState with position := out }
         (p.offscreenFramebuffer.pickPixel glWindowX glWindowY))

/-- The two logical attachments of the offscreen target
(`enum OffscreenTextures`). -/
inductive OffscreenTextures where
  | COLOR
  | PICK
deriving DecidableEq, Repr

/-- The render context passed to each visible layer's `draw`
(`SliceViewPanelRenderContext`): the data→device transform and the shared
pick-ID manager. -/
structure SliceViewPanelRenderContext where
  dataToDevice : Mat4
  pickIDs : PickIDManager
deriving DecidableEq, Repr

/-- One step of the per-frame pipeline executed by `SliceViewPanel.draw`,
recorded in program order. -/
inductive DrawEvent where
  | updateRendering
  | bindFramebuffer (width height : ℚ)
  | clearColor
  | baseDraw
  | pickClear
  | layerDraw (layer : ℕ) (renderContext : SliceViewPanelRenderContext)
  | setDrawBuffers (buffers : List OffscreenTextures)
  | axisDraw (mat : Mat4)
  | unbindFramebuffer
  | blitColor
  | scaleBarUpdate (targetLengthInPixels nanometersPerPixel : ℚ)
deriving DecidableEq, Repr

/-- The axis-overlay transform computed by `draw` (panel.ts lines 143–159):
copy `dataToDevice`, zero the translation entries `m[12..14]`, zero the
out-of-plane row entries `m[2 + 4*i]`, then scale entries `m[0..11]` by
`axisLength * pixelSize` with `axisLength = min(width, height) / 4 * 1.5`. -/
def axisOverlayMat (d : Mat4) (width height pixelSize : ℚ) : Mat4 :=
  let s := min width height / 4 * (3 / 2) * pixelSize
  { m0 := d.m0 * s, m1 := d.m1 * s, m2 := 0, m3 := d.m3 * s,
    m4 := d.m4 * s, m5 := d.m5 * s, m6 := 0, m7 := d.m7 * s,
    m8 := d.m8 * s, m9 := d.m9 * s, m10 := 0, m11 := d.m11 * s,
    m12 := 0, m13 := 0, m14 := 0, m15 := d.m15 }

/-- `SliceViewPanel.draw()` (panel.ts lines 108–178): no-op when the viewport
is invalid; otherwise update rendering, bind the offscreen target at the
viewport size, clear, draw the base slice image, clear the pick-ID manager,
draw each visible layer in tracker order with a shared render context, then
(when the axis-lines toggle is on) restrict the draw buffers to the color
attachment and draw the axis overlay, unbind, blit the color attachment to
the screen, and set the scale-bar parameters to
`targetLengthInPixels = min(width / 4, 100)` and
`nanometersPerPixel = pixelSize`.  Returns the updated panel state together
with the ordered list of pipeline events. -/
def SliceViewPanel.draw (p : SliceViewPanel) : SliceViewPanel × List DrawEvent :=
  if ¬ p.sliceView.hasValidViewport then (p, [])
  else
    let sliceView := p.sliceView
    let width := sliceView.width
    let height := sliceView.height
    let clearedPickIDs := p.pickIDs.clear
    let renderContext : SliceViewPanelRenderContext :=
      ⟨sliceView.dataToDevice, clearedPickIDs⟩
    let targetLength := min (width / 4) 100
    let events :=
      [DrawEvent.updateRendering,
       DrawEvent.bindFramebuffer width height,
       DrawEvent.clearColor,
       DrawEvent.baseDraw,
       DrawEvent.pickClear]
      ++ p.visibleLayers.map (fun l => DrawEvent.layerDraw l renderContext)
      ++ (if p.showAxisLines then
            [DrawEvent.setDrawBuffers [OffscreenTextures.COLOR],
             DrawEvent.axisDraw
               (axisOverlayMat sliceView.dataToDevice width height
                 sliceView.pixelSize)]
          else [])
      ++ [DrawEvent.unbindFramebuffer,
          DrawEvent.blitColor,
          DrawEvent.scaleBarUpdate targetLength sliceView.pixelSize]
    ({ p with
        pickIDs := clearedPickIDs,
        offscreenFramebuffer :=
          { p.offscreenFramebuffer with sizeWidth := width, sizeHeight := height },
        scaleBarTargetLengthInPixels := targetLength,
        scaleBarNanometersPerPixel := sliceView.pixelSize },
     events)

/-- An abstract simulation of the offscreen target's attachments while the
pipeline runs: a version counter per attachment (bumped whenever a pass
writes the attachment) and the currently enabled draw-buffer list. -/
structure FramebufferSim where
  colorVersion : ℕ
  pickVersion : ℕ
  drawBuffers : List OffscreenTextures
deriving DecidableEq, Repr

/-- A rendering pass writes each attachment enabled in the current
draw-buffer list. -/
def FramebufferSim.paint (fb : FramebufferSim) : FramebufferSim :=
  { fb with
    colorVersion :=
      if OffscreenTextures.COLOR ∈ fb.drawBuffers then fb.colorVersion + 1
      else fb.colorVersion,
    pickVersion :=
      if OffscreenTextures.PICK ∈ fb.drawBuffers then fb.pickVersion + 1
      else fb.pickVersion }

/-- Modelled from the spec: the effect of each pipeline event on the
offscreen attachments, following the WebGL `WEBGL_draw_buffers` semantics
the source relies on — a draw call writes only the attachments enabled by
the most recent `drawBuffersWEBGL` call, and binding the framebuffer enables
both data buffers. -/
def FramebufferSim.applyEvent (fb : FramebufferSim) : DrawEvent → FramebufferSim
  | DrawEvent.bindFramebuffer _ _ =>
      { fb with drawBuffers := [OffscreenTextures.COLOR, OffscreenTextures.PICK] }
  | DrawEvent.setDrawBuffers buffers => { fb with drawBuffers := buffers }
  | DrawEvent.clearColor => fb.paint
  | DrawEvent.baseDraw => fb.paint
  | DrawEvent.layerDraw _ _ => fb.paint
  | DrawEvent.axisDraw _ => fb.paint
  | _ => fb

/-- Running the attachment simulation over a list of pipeline events. -/
def FramebufferSim.run (fb : FramebufferSim) (events : List DrawEvent) :
    FramebufferSim :=
  events.foldl FramebufferSim.applyEvent fb

/-- Whether a pipeline event is a visible layer's draw call. -/
def DrawEvent.isLayerDraw : DrawEvent → Bool
  | DrawEvent.layerDraw _ _ => true
  | _ => false

/-- Whether a pipeline event is the axis-overlay draw call. -/
def DrawEvent.isAxisDraw : DrawEvent → Bool
  | DrawEvent.axisDraw _ => true
  | _ => false

/-- The per-layer subscription state maintained by the panel's
`visibleLayerTracker` handlers, for one layer: how many subscriptions of the
panel's `scheduleRedraw` callback are registered on the layer's
`redrawNeeded` signal, and how many redraws the panel has scheduled.
Modelled from the spec: `Signal.add`/`Signal.remove` and `scheduleRedraw`
are external to this repository slice; `add` registers one subscription,
`remove` deregisters one, and `scheduleRedraw` coalesces into a scheduled
redraw, counted here. -/
structure LayerTrackerState where
  subscriptionCount : ℕ
  redrawsScheduled : ℕ
deriving DecidableEq, Repr

/-- The tracker's attach handler (panel.ts lines 73–76):
`layer.redrawNeeded.add(this.scheduleRedraw, this)` then
`this.scheduleRedraw()`. -/
def attachHandler (s : LayerTrackerState) : LayerTrackerState :=
  { subscriptionCount := s.subscriptionCount + 1,
    redrawsScheduled := s.redrawsScheduled + 1 }

/-- The tracker's detach handler (panel.ts lines 77–79):
`layer.redrawNeeded.remove(this.scheduleRedraw, this)` then
`this.scheduleRedraw()`. -/
def detachHandler (s : LayerTrackerState) : LayerTrackerState :=
  { subscriptionCount := s.subscriptionCount - 1,
    redrawsScheduled := s.redrawsScheduled + 1 }

/-- `n` successive attach/detach cycles of one layer. -/
def attachDetachCycles : ℕ → LayerTrackerState → LayerTrackerState
  | 0, s => s
  | n + 1, s => attachDetachCycles n (detachHandler (attachHandler s))

/-- Scaling a 3-vector by a scalar. -/
def Vec3.smul (v : Vec3) (s : ℚ) : Vec3 :=
  ⟨v.x * s, v.y * s, v.z * s⟩

/-- `vec3.scaleAndAdd` is addition of a scalar multiple. -/
theorem Vec3.scaleAndAdd_eq_add_smul (a b : Vec3) (s : ℚ) :
    a.scaleAndAdd b s = a.add (b.smul s) := rfl

/-- A sample offscreen target matching an 800×600 viewport, with pick value 7
everywhere. -/
def fbSample : OffscreenFramebufferModel :=
  ⟨800, 600, fun _ _ => 7⟩

/-- A sample valid 800×600 slice view with identity transforms, the standard
in-plane axes, and 2 nm/pixel. -/
def svSample : SliceView :=
  ⟨true, 800, 600, Mat4.identity, Mat4.identity, ⟨1, 0, 0⟩, ⟨0, 1, 0⟩, 2⟩

/-- A sample valid navigation state. -/
def navSample : NavigationState :=
  ⟨true, ⟨1, 2, 3⟩, 1, 0⟩

/-- A sample panel over `svSample`, with the mouse at (500, 350), axis lines
enabled, three visible layers and one registered pick ID. -/
def panelSample : SliceViewPanel :=
  ⟨svSample, navSample, 500, 350, true, [10, 20, 30], ⟨[(1, 5, 9)]⟩, fbSample, 0, 0⟩

/-- `panelSample` with viewport and navigation state invalidated. -/
def panelInvalid : SliceViewPanel :=
  { panelSample with
    sliceView := { svSample with hasValidViewport := false },
    navigationState := { navSample with valid := false } }

/-- C1: when the navigation state is valid, `zoomByMouse(factor)` applies
`zoomBy(factor)` and then updates the spatial position to
`position + viewportAxes[0] * (mx * (oldZoom - newZoom))
          + viewportAxes[1] * (my * (oldZoom - newZoom))`
where `(mx, my)` is the mouse position minus the viewport half-size, and
dispatches `position.changed`, touching nothing else; when the navigation
state is invalid it changes no state at all. -/
theorem zoomByMouse_pivot_translation (p : SliceViewPanel) (factor : ℚ) :
    (p.navigationState.valid = true →
      p.zoomByMouse factor =
        { p with navigationState :=
            { p.navigationState.zoomBy factor with
              position :=
                ((p.navigationState.zoomBy factor).position.add
                    (p.sliceView.viewportAxes0.smul
                      ((p.mouseX - p.sliceView.width / 2) *
                        (p.navigationState.zoomFactor -
                          (p.navigationState.zoomBy factor).zoomFactor)))).add
                  (p.sliceView.viewportAxes1.smul
                    ((p.mouseY - p.sliceView.height / 2) *
                      (p.navigationState.zoomFactor -
                        (p.navigationState.zoomBy factor).zoomFactor))),
              positionChangedDispatches :=
                (p.navigationState.zoomBy factor).positionChangedDispatches + 1 } }) ∧
    (p.navigationState.valid = false → p.zoomByMouse factor = p) := by
  constructor
  · intro h
    simp [SliceViewPanel.zoomByMouse, h, Vec3.scaleAndAdd_eq_add_smul]
  · intro h
    simp [SliceViewPanel.zoomByMouse, h]

/-- C1 witness: `zoomByMouse 2` on the sample panel, via
`zoomByMouse_pivot_translation`. -/
theorem zoomByMouse_pivot_translation_witness :
    panelSample.navigationState.valid = true ∧
    panelSample.zoomByMouse 2 =
      { panelSample with navigationState :=
          { panelSample.navigationState.zoomBy 2 with
            position :=
              ((panelSample.navigationState.zoomBy 2).position.add
                  (panelSample.sliceView.viewportAxes0.smul
                    ((panelSample.mouseX - panelSample.sliceView.width / 2) *
                      (panelSample.navigationState.zoomFactor -
                        (panelSample.navigationState.zoomBy 2).zoomFactor)))).add
                (panelSample.sliceView.viewportAxes1.smul
                  ((panelSample.mouseY - panelSample.sliceView.height / 2) *
                    (panelSample.navigationState.zoomFactor -
                      (panelSample.navigationState.zoomBy 2).zoomFactor))),
            positionChangedDispatches :=
              (panelSample.navigationState.zoomBy 2).positionChangedDispatches + 1 } } :=
  ⟨rfl, (zoomByMouse_pivot_translation panelSample 2).1 rfl⟩

/-- C8: when the viewport is not yet valid, `draw()` is a complete no-op: the
panel state is unchanged and no pipeline event (render update, bind, pick
clear, layer draw, …) is emitted. -/
theorem draw_noop_invalid_viewport (p : SliceViewPanel)
    (h : p.sliceView.hasValidViewport = false) :
    p.draw = (p, []) := by
  simp [SliceViewPanel.draw, h]

/-- C8 witness: `draw` on the invalid sample panel, via
`draw_noop_invalid_viewport`. -/
theorem draw_noop_invalid_viewport_witness :
    panelInvalid.sliceView.hasValidViewport = false ∧
    panelInvalid.draw = (panelInvalid, []) :=
  ⟨rfl, draw_noop_invalid_viewport panelInvalid rfl⟩

/-- C6: in a valid-viewport `draw()`, the pipeline trace decomposes as a
prefix with no layer draw and no axis draw, then the pick-ID manager clear,
then exactly the visible layers in tracker order — each drawn with the
shared render context carrying `dataToDevice` and the (cleared) pick-ID
manager — then a suffix with no layer draw; when the axis-lines overlay is
enabled its draw call sits in that suffix, strictly after all layer draws. -/
theorem draw_order_invariant (p : SliceViewPanel)
    (h : p.sliceView.hasValidViewport = true) :
    ∃ pre post,
      (p.draw).2 =
        pre ++ [DrawEvent.pickClear] ++
          p.visibleLayers.map
            (fun l => DrawEvent.layerDraw l
              ⟨p.sliceView.dataToDevice, p.pickIDs.clear⟩) ++ post ∧
      (∀ e ∈ pre, e.isLayerDraw = false ∧ e.isAxisDraw = false) ∧
      (∀ e ∈ post, e.isLayerDraw = false) ∧
      (p.showAxisLines = true → ∃ m, DrawEvent.axisDraw m ∈ post) := by
  refine ⟨[DrawEvent.updateRendering,
           DrawEvent.bindFramebuffer p.sliceView.width p.sliceView.height,
           DrawEvent.clearColor, DrawEvent.baseDraw],
          (if p.showAxisLines then
             [DrawEvent.setDrawBuffers [OffscreenTextures.COLOR],
              DrawEvent.axisDraw
                (axisOverlayMat p.sliceView.dataToDevice p.sliceView.width
                  p.sliceView.height p.sliceView.pixelSize)]
           else []) ++
            [DrawEvent.unbindFramebuffer, DrawEvent.blitColor,
             DrawEvent.scaleBarUpdate (min (p.sliceView.width / 4) 100)
               p.sliceView.pixelSize], ?_, ?_, ?_, ?_⟩
  · simp [SliceViewPanel.draw, h]
  · intro e he
    fin_cases he <;> simp [DrawEvent.isLayerDraw, DrawEvent.isAxisDraw]
  · intro e he
    rcases List.mem_append.mp he with h1 | h2
    · by_cases hs : p.showAxisLines
      · simp only [hs, if_true] at h1
        fin_cases h1 <;> simp [DrawEvent.isLayerDraw]
      · simp [hs] at h1
    · fin_cases h2 <;> simp [DrawEvent.isLayerDraw]
  · intro hs
    refine ⟨axisOverlayMat p.sliceView.dataToDevice p.sliceView.width
      p.sliceView.height p.sliceView.pixelSize, ?_⟩
    simp [hs]

/-- C6 witness: the trace decomposition for the sample panel, via
`draw_order_invariant`. -/
theorem draw_order_invariant_witness :
    panelSample.sliceView.hasValidViewport = true ∧
    ∃ pre post,
      (panelSample.draw).2 =
        pre ++ [DrawEvent.pickClear] ++
          panelSample.visibleLayers.map
            (fun l => DrawEvent.layerDraw l
              ⟨panelSample.sliceView.dataToDevice, panelSample.pickIDs.clear⟩) ++
          post ∧
      (∀ e ∈ pre, e.isLayerDraw = false ∧ e.isAxisDraw = false) ∧
      (∀ e ∈ post, e.isLayerDraw = false) ∧
      (panelSample.showAxisLines = true → ∃ m, DrawEvent.axisDraw m ∈ post) :=
  ⟨rfl, draw_order_invariant panelSample rfl⟩

/-- C7: in a valid-viewport `draw()` with the axis-lines overlay enabled, the
overlay pass appears in the trace as a draw-buffer restriction to the color
attachment followed by the axis draw call, and running that pass over any
attachment state leaves the pick attachment unchanged while writing the
color attachment: axis lines can never produce a pick hit. -/
theorem axis_overlay_color_only (p : SliceViewPanel)
    (h : p.sliceView.hasValidViewport = true)
    (ha : p.showAxisLines = true) :
    ∃ a b m,
      (p.draw).2 =
        a ++ [DrawEvent.setDrawBuffers [OffscreenTextures.COLOR],
              DrawEvent.axisDraw m] ++ b ∧
      ∀ fb : FramebufferSim,
        (fb.run [DrawEvent.setDrawBuffers [OffscreenTextures.COLOR],
                 DrawEvent.axisDraw m]).pickVersion = fb.pickVersion ∧
        (fb.run [DrawEvent.setDrawBuffers [OffscreenTextures.COLOR],
                 DrawEvent.axisDraw m]).colorVersion = fb.colorVersion + 1 := by
  refine ⟨[DrawEvent.updateRendering,
           DrawEvent.bindFramebuffer p.sliceView.width p.sliceView.height,
           DrawEvent.clearColor, DrawEvent.baseDraw, DrawEvent.pickClear] ++
            p.visibleLayers.map
              (fun l => DrawEvent.layerDraw l
                ⟨p.sliceView.dataToDevice, p.pickIDs.clear⟩),
          [DrawEvent.unbindFramebuffer, DrawEvent.blitColor,
           DrawEvent.scaleBarUpdate (min (p.sliceView.width / 4) 100)
             p.sliceView.pixelSize],
          axisOverlayMat p.sliceView.dataToDevice p.sliceView.width
            p.sliceView.height p.sliceView.pixelSize, ?_, ?_⟩
  · simp [SliceViewPanel.draw, h, ha]
  · intro fb
    constructor <;>
      simp [FramebufferSim.run, FramebufferSim.applyEvent, FramebufferSim.paint]

/-- C7 witness: the overlay pass of the sample panel leaves the pick
attachment unchanged, via `axis_overlay_color_only`. -/
theorem axis_overlay_color_only_witness :
    panelSample.sliceView.hasValidViewport = true ∧
    panelSample.showAxisLines = true ∧
    ∃ a b m,
      (panelSample.draw).2 =
        a ++ [DrawEvent.setDrawBuffers [OffscreenTextures.COLOR],
              DrawEvent.axisDraw m] ++ b ∧
      ∀ fb : FramebufferSim,
        (fb.run [DrawEvent.setDrawBuffers [OffscreenTextures.COLOR],
                 DrawEvent.axisDraw m]).pickVersion = fb.pickVersion ∧
        (fb.run [DrawEvent.setDrawBuffers [OffscreenTextures.COLOR],
                 DrawEvent.axisDraw m]).colorVersion = fb.colorVersion + 1 :=
  ⟨rfl, rfl, axis_overlay_color_only panelSample rfl rfl⟩

/-- C10: after a completed (valid-viewport) `draw()`, the scale-bar widget's
parameters are exactly `targetLengthInPixels = min(width / 4, 100)` — capped
at 100 pixels — and `nanometersPerPixel = sliceView.pixelSize`. -/
theorem draw_scale_bar_parameters (p : SliceViewPanel)
    (h : p.sliceView.hasValidViewport = true) :
    (p.draw).1.scaleBarTargetLengthInPixels = min (p.sliceView.width / 4) 100 ∧
    (p.draw).1.scaleBarNanometersPerPixel = p.sliceView.pixelSize := by
  constructor <;> simp [SliceViewPanel.draw, h]

/-- C10 witness: for the 800-pixel-wide sample panel the scale-bar target
length is capped at 100 pixels, via `draw_scale_bar_parameters`. -/
theorem draw_scale_bar_parameters_witness :
    panelSample.sliceView.hasValidViewport = true ∧
    (panelSample.draw).1.scaleBarTargetLengthInPixels =
      min (panelSample.sliceView.width / 4) 100 ∧
    (panelSample.draw).1.scaleBarNanometersPerPixel =
      panelSample.sliceView.pixelSize :=
  ⟨rfl, draw_scale_bar_parameters panelSample rfl⟩

/-- C5: `updateMouseState` first clears `pickedRenderLayer`; it returns false
with no further mutation when the viewport is invalid or the offscreen
target's size differs from the viewport size; otherwise it returns true,
sets the position to `viewportToData` applied to
`(mouseX - width/2, mouseY - height/2, 0)`, and resolves the pick value read
at the Y-flipped pixel `(mouseX, height - mouseY)` through the pick-ID
manager. -/
theorem updateMouseState_spec (p : SliceViewPanel) (ms : MouseSelectionState) :
    (p.sliceView.hasValidViewport = false →
      p.updateMouseState ms = (false, { ms with pickedRenderLayer := none })) ∧
    (p.sliceView.hasValidViewport = true →
      p.offscreenFramebuffer.hasSize p.sliceView.width p.sliceView.height
          = false →
      p.updateMouseState ms = (false, { ms with pickedRenderLayer := none })) ∧
    (p.sliceView.hasValidViewport = true →
      p.offscreenFramebuffer.hasSize p.sliceView.width p.sliceView.height
          = true →
      p.updateMouseState ms =
        (true,
         p.pickIDs.setMouseState
           { ms with
             pickedRenderLayer := none,
             position := Vec3.transformMat4
               ⟨p.mouseX - p.sliceView.width / 2,
                p.mouseY - p.sliceView.height / 2, 0⟩
               p.sliceView.viewportToData }
           (p.offscreenFramebuffer.pickPixel p.mouseX
             (p.sliceView.height - p.mouseY)))) := by
  refine ⟨fun h => ?_, fun h hs => ?_, fun h hs => ?_⟩
  · simp [SliceViewPanel.updateMouseState, h]
  · simp [SliceViewPanel.updateMouseState, h, hs]
  · simp [SliceViewPanel.updateMouseState, h, hs]

/-- C5 witness: a successful hit test on the sample panel, via
`updateMouseState_spec`. -/
theorem updateMouseState_spec_witness :
    panelSample.sliceView.hasValidViewport = true ∧
    panelSample.offscreenFramebuffer.hasSize panelSample.sliceView.width
      panelSample.sliceView.height = true ∧
    panelSample.updateMouseState ⟨⟨0, 0, 0⟩, some 3, some 4⟩ =
      (true,
       panelSample.pickIDs.setMouseState
         { (⟨⟨0, 0, 0⟩, some 3, some 4⟩ : MouseSelectionState) with
           pickedRenderLayer := none,
           position := Vec3.transformMat4
             ⟨panelSample.mouseX - panelSample.sliceView.width / 2,
              panelSample.mouseY - panelSample.sliceView.height / 2, 0⟩
             panelSample.sliceView.viewportToData }
         (panelSample.offscreenFramebuffer.pickPixel panelSample.mouseX
           (panelSample.sliceView.height - panelSample.mouseY))) :=
  ⟨rfl, by decide,
   (updateMouseState_spec panelSample ⟨⟨0, 0, 0⟩, some 3, some 4⟩).2.2 rfl
     (by decide)⟩

/-- Closed form of `n` attach/detach cycles: the subscription count is
restored and each handler invocation schedules exactly one redraw. -/
theorem attachDetachCycles_state (n : ℕ) (s : LayerTrackerState) :
    attachDetachCycles n s =
      ⟨s.subscriptionCount, s.redrawsScheduled + 2 * n⟩ := by
  induction n generalizing s with
  | zero => cases s; simp [attachDetachCycles]
  | succ n ih =>
      cases s with
      | mk c r =>
          rw [attachDetachCycles, ih]
          simp [attachHandler, detachHandler]
          omega

/-- C9: starting from no subscription, the attach handler adds exactly one
subscription and schedules exactly one redraw, the detach handler removes
exactly that subscription and schedules exactly one redraw, so after any
number of attach/detach cycles there is exactly one active subscription
while attached (after each attach), zero after each detach — in particular
zero after the final detach — and `n` cycles schedule exactly `2 * n`
redraws. -/
theorem visibleLayerTracker_subscription_discipline (n : ℕ)
    (s : LayerTrackerState) (h : s.subscriptionCount = 0) :
    (∀ k, (attachHandler (attachDetachCycles k s)).subscriptionCount = 1) ∧
    (∀ k, (attachHandler (attachDetachCycles k s)).redrawsScheduled =
      (attachDetachCycles k s).redrawsScheduled + 1) ∧
    (∀ k, (detachHandler (attachHandler (attachDetachCycles k s))).subscriptionCount
      = 0) ∧
    (∀ k, (detachHandler (attachHandler (attachDetachCycles k s))).redrawsScheduled
      = (attachHandler (attachDetachCycles k s)).redrawsScheduled + 1) ∧
    (attachDetachCycles n s).subscriptionCount = 0 ∧
    (attachDetachCycles n s).redrawsScheduled = s.redrawsScheduled + 2 * n := by
  refine ⟨fun k => ?_, fun k => ?_, fun k => ?_, fun k => ?_, ?_, ?_⟩ <;>
    simp [attachDetachCycles_state, attachHandler, detachHandler, h]

/-- C9 witness: three attach/detach cycles from a fresh state, via
`visibleLayerTracker_subscription_discipline`. -/
theorem visibleLayerTracker_subscription_discipline_witness :
    (⟨0, 0⟩ : LayerTrackerState).subscriptionCount = 0 ∧
    ((∀ k, (attachHandler (attachDetachCycles k ⟨0, 0⟩)).subscriptionCount = 1) ∧
     (∀ k, (attachHandler (attachDetachCycles k ⟨0, 0⟩)).redrawsScheduled =
       (attachDetachCycles k ⟨0, 0⟩).redrawsScheduled + 1) ∧
     (∀ k, (detachHandler (attachHandler (attachDetachCycles k ⟨0, 0⟩))).subscriptionCount
       = 0) ∧
     (∀ k, (detachHandler (attachHandler (attachDetachCycles k ⟨0, 0⟩))).redrawsScheduled
       = (attachHandler (attachDetachCycles k ⟨0, 0⟩)).redrawsScheduled + 1) ∧
     (attachDetachCycles 3 ⟨0, 0⟩).subscriptionCount = 0 ∧
     (attachDetachCycles 3 ⟨0, 0⟩).redrawsScheduled =
       (⟨0, 0⟩ : LayerTrackerState).redrawsScheduled + 2 * 3) :=
  ⟨rfl, visibleLayerTracker_subscription_discipline 3 ⟨0, 0⟩ rfl⟩

/-- A later absolute-rotation callback supersedes an earlier one: because the
rotation is reapplied wholesale from the drag-start orientation, composing
two shift-drag callbacks equals the second alone. -/
theorem mouseDragCallback_shift_overwrite {O : Type} (rot : Vec3 → ℚ → O → O)
    (sv : SliceView) (a : Vec3) (d1 d2 e1 e2 : ℚ) (st : DragState O) :
    (mouseDragCallback rot sv a true e1 e2
      (mouseDragCallback rot sv a true d1 d2 st).1).1 =
    (mouseDragCallback rot sv a true e1 e2 st).1 := by
  cases st
  simp [mouseDragCallback]

/-- Processing the running partial sums (from `acc`) of a nonempty list of
incremental deltas equals a single callback with the full sum from `acc`. -/
theorem processRotationDrag_cumulativeFrom {O : Type} (rot : Vec3 → ℚ → O → O)
    (sv : SliceView) (a : Vec3) (ds : List (ℚ × ℚ)) (h : ds ≠ [])
    (acc : ℚ × ℚ) (st : DragState O) :
    processRotationDrag rot sv a st (cumulativeDeltasFrom acc ds) =
      (mouseDragCallback rot sv a true
        (ds.foldl (fun t d => (t.1 + d.1, t.2 + d.2)) acc).1
        (ds.foldl (fun t d => (t.1 + d.1, t.2 + d.2)) acc).2 st).1 := by
  induction ds generalizing acc st with
  | nil => exact absurd rfl h
  | cons d ds ih =>
      cases ds with
      | nil => rfl
      | cons e es =>
          have hne : e :: es ≠ ([] : List (ℚ × ℚ)) := by simp
          calc
            processRotationDrag rot sv a st
                (cumulativeDeltasFrom acc (d :: e :: es))
              = processRotationDrag rot sv a
                  (mouseDragCallback rot sv a true (acc.1 + d.1) (acc.2 + d.2)
                    st).1
                  (cumulativeDeltasFrom (acc.1 + d.1, acc.2 + d.2) (e :: es)) :=
                rfl
            _ = (mouseDragCallback rot sv a true
                  ((e :: es).foldl (fun t x => (t.1 + x.1, t.2 + x.2))
                    (acc.1 + d.1, acc.2 + d.2)).1
                  ((e :: es).foldl (fun t x => (t.1 + x.1, t.2 + x.2))
                    (acc.1 + d.1, acc.2 + d.2)).2
                  (mouseDragCallback rot sv a true (acc.1 + d.1) (acc.2 + d.2)
                    st).1).1 :=
                ih hne (acc.1 + d.1, acc.2 + d.2) _
            _ = (mouseDragCallback rot sv a true
                  ((d :: e :: es).foldl (fun t x => (t.1 + x.1, t.2 + x.2))
                    acc).1
                  ((d :: e :: es).foldl (fun t x => (t.1 + x.1, t.2 + x.2))
                    acc).2 st).1 :=
                mouseDragCallback_shift_overwrite rot sv a _ _ _ _ st

/-- C2: for any rotation semantics `rot`, any viewport, anchor and drag-start
state, processing the cumulative deltas `(d1), (d1+d2), …, (d1+⋯+dn)` of a
nonempty incremental-delta sequence through the rotate-modifier drag
callback yields exactly the state of a single callback with the total delta
`(d1+⋯+dn)`: the final orientation is a pure function of the total mouse
travel and the anchor, independent of how many callbacks delivered it. -/
theorem rotation_pure_in_total_travel {O : Type} (rot : Vec3 → ℚ → O → O)
    (sv : SliceView) (a : Vec3) (st : DragState O) (ds : List (ℚ × ℚ))
    (h : ds ≠ []) :
    processRotationDrag rot sv a st (cumulativeDeltas ds) =
      (mouseDragCallback rot sv a true (totalDelta ds).1 (totalDelta ds).2
        st).1 :=
  processRotationDrag_cumulativeFrom rot sv a ds h (0, 0) st

/-- C2 witness: a three-callback drag with incremental deltas
`(1,2), (3,4), (5,6)` over a history-recording rotation semantics, via
`rotation_pure_in_total_travel`. -/
theorem rotation_pure_in_total_travel_witness :
    ([((1 : ℚ), (2 : ℚ)), (3, 4), (5, 6)] ≠ ([] : List (ℚ × ℚ))) ∧
    processRotationDrag (fun v q o => (v, q) :: o) svSample ⟨0, 0, 0⟩
        ⟨⟨0, 0, 0⟩, 0, ([] : List (Vec3 × ℚ)), []⟩
        (cumulativeDeltas [(1, 2), (3, 4), (5, 6)]) =
      (mouseDragCallback (fun v q o => (v, q) :: o) svSample ⟨0, 0, 0⟩ true
        (totalDelta [(1, 2), (3, 4), (5, 6)]).1
        (totalDelta [(1, 2), (3, 4), (5, 6)]).2
        ⟨⟨0, 0, 0⟩, 0, [], []⟩).1 :=
  ⟨by decide,
   rotation_pure_in_total_travel (fun v q o => (v, q) :: o) svSample ⟨0, 0, 0⟩
     ⟨⟨0, 0, 0⟩, 0, [], []⟩ [(1, 2), (3, 4), (5, 6)] (by decide)⟩

/-- A drag state over the trivial orientation type, for concrete evaluation
of the drag callback. -/
def dragStateUnit : DragState Unit :=
  ⟨⟨1, 1, 1⟩, 0, (), ()⟩

/-- C3 counterexample: on the sample viewport (whose in-plane axes are the
distinct vectors `(1,0,0)` and `(0,1,0)`) with cumulative deltas
`(totalDx, totalDy) = (4, 8)`, the rotation drag callback issues no rotation
around `viewportAxes[0]` by `totalDx / 4 = 1` degrees — the claimed
axis/delta pairing does not occur. -/
theorem rotation_axis_pairing_counterexample :
    ¬ ∃ e ∈ (mouseDragCallback (fun _ _ o => o) svSample ⟨0, 0, 0⟩ true 4 8
        dragStateUnit).2,
      e.axis = svSample.viewportAxes0 ∧ e.angleDegrees = 4 / 4 := by
  rintro ⟨e, he, hax, hang⟩
  simp only [mouseDragCallback, if_true] at he
  rcases List.mem_pair.mp he with h1 | h2
  · rw [h1] at hax
    simp [svSample] at hax
  · rw [h2] at hang
    norm_num [svSample] at hang

/-- C3 amended: every rotation drag callback with cumulative deltas
`(totalDx, totalDy)` issues exactly two absolute rotations anchored at the
position captured at drag start: first around `viewportAxes[1]` by
`totalDx / 4` degrees, then around `viewportAxes[0]` by `totalDy / 4`
degrees. -/
theorem rotation_axis_pairing_amended {O : Type} (rot : Vec3 → ℚ → O → O)
    (sv : SliceView) (initialPosition : Vec3) (totalDx totalDy : ℚ)
    (st : DragState O) :
    (mouseDragCallback rot sv initialPosition true totalDx totalDy st).2 =
      [⟨sv.viewportAxes1, totalDx / 4, initialPosition⟩,
       ⟨sv.viewportAxes0, totalDy / 4, initialPosition⟩] := by
  simp [mouseDragCallback]

/-- C4 counterexample: with the identity `viewportToData`, previous position
`(1,1,1)` and delta `(2,3)`, the pan callback produces position `(2,3,0)`,
not `(1,1,1) + (2,3,0) = (3,4,1)`: the new position is not the old position
plus the transformed delta. -/
theorem pan_adds_delta_counterexample :
    ¬ (mouseDragCallback (fun _ _ o => o) svSample ⟨0, 0, 0⟩ false 2 3
        dragStateUnit).1.position =
      dragStateUnit.position.add
        (Vec3.transformMat4 ⟨2, 3, 0⟩ svSample.viewportToData) := by
  intro hcontra
  simp only [mouseDragCallback, if_neg, Bool.false_eq_true, not_false_iff] at hcontra
  norm_num [dragStateUnit, svSample, Mat4.identity, Vec3.add,
    Vec3.transformMat4, Vec3.mk.injEq] at hcontra

/-- C4 amended: for every incremental delta `(dx, dy)` the pan callback
transforms the point `(dx, dy, 0)` through `viewportToData` and overwrites
the spatial position with the result (the transform's translation column,
which carries the viewport-center data position, supplies the base), then
dispatches the position-changed signal and issues no rotation. -/
theorem pan_sets_transformed_point {O : Type} (rot : Vec3 → ℚ → O → O)
    (sv : SliceView) (initialPosition : Vec3) (dx dy : ℚ) (st : DragState O) :
    (mouseDragCallback rot sv initialPosition false dx dy st).1 =
      { st with
        position := Vec3.transformMat4 ⟨dx, dy, 0⟩ sv.viewportToData,
        positionChangedDispatches := st.positionChangedDispatches + 1 } ∧
    (mouseDragCallback rot sv initialPosition false dx dy st).2 = [] := by
  constructor <;> simp [mouseDragCallback]
